/-
  Verification of the sqlparse core (non-validating SQL lexer, statement
  splitter, grouping engine and CST node model) against its specification.

  The Python sources are shallowly embedded: Python strings become `List Char`,
  the character-class predicates are the ASCII fragment of Python's
  `str.isspace` / `str.isdigit` / `str.isalpha` / `str.isalnum`, and code that
  can raise (IndexError / AttributeError / TypeError) returns `Except PyErr`.

  The repository ships without `tokens.py`, `keywords.py` and with
  `StatementSplitter` left as a stub; those parts are modelled from the spec
  and are marked `Modelled from the spec:` in their doc comments.  Everything
  else is translated from the source files under `sqlparse/`.
-/
import Mathlib

namespace SqlParse

/-- Python strings are modelled as lists of characters. -/
abbrev PyStr := List Char

/-- Python exceptions that the embedded code can raise. -/
inductive PyErr where
  /-- `IndexError`: sequence index out of range. -/
  | indexError : PyErr
  /-- `AttributeError`: attribute lookup failed; carries the attribute name. -/
  | attributeError (attr : String) : PyErr
  /-- `TypeError`: call with wrong arguments; carries the callee name. -/
  | typeError (callee : String) : PyErr
  deriving DecidableEq, Repr

/-- ASCII fragment of Python `str.isspace`. -/
def pyIsSpace (c : Char) : Bool :=
  c = ' ' || c = '\t' || c = '\n' || c = '\x0d' || c = '\x0b' || c = '\x0c'

/-- ASCII fragment of Python `str.isdigit`. -/
def pyIsDigit (c : Char) : Bool :=
  '0' ≤ c && c ≤ '9'

/-- ASCII fragment of Python `str.isalpha`. -/
def pyIsAlpha (c : Char) : Bool :=
  ('a' ≤ c && c ≤ 'z') || ('A' ≤ c && c ≤ 'Z')

/-- ASCII fragment of Python `str.isalnum`. -/
def pyIsAlnum (c : Char) : Bool :=
  pyIsAlpha c || pyIsDigit c

/-- ASCII fragment of Python `str.upper` on a single character. -/
def pyUpperChar (c : Char) : Char :=
  if 'a' ≤ c ∧ c ≤ 'z' then Char.ofNat (c.toNat - 32) else c

/-- ASCII fragment of Python `str.upper`. -/
def pyUpper (s : PyStr) : PyStr :=
  s.map pyUpperChar

/-- The single-quote character (written via its code point). -/
def squote : Char := Char.ofNat 39

/-- The double-quote character (written via its code point). -/
def dquote : Char := Char.ofNat 34

/-- The backslash character (written via its code point). -/
def bslash : Char := Char.ofNat 92

/-- Modelled from the spec: the token-type taxonomy (`tokens.py` is absent
from the sources).  Per §4.1 a token type is a tag with an optional parent
tag; we represent a tag by its path from the root, so that the membership
test "T is within category C" is "the path of C is a prefix of the path of
T".  The concrete paths follow the tag names listed in §4.1. -/
abbrev TokType := List String

/-- §4.1 membership test: `T in C` succeeds iff C is T or an ancestor of T. -/
def ttWithin (t c : TokType) : Bool :=
  c.isPrefixOf t

def tWhitespace : TokType := ["Text", "Whitespace"]
def tNewline : TokType := ["Text", "Whitespace", "Newline"]
def tCommentSingle : TokType := ["Comment", "Single"]
def tKeyword : TokType := ["Keyword"]
def tKeywordDML : TokType := ["Keyword", "DML"]
def tKeywordDDL : TokType := ["Keyword", "DDL"]
def tKeywordOrder : TokType := ["Keyword", "Order"]
def tName : TokType := ["Name"]
def tNameBuiltin : TokType := ["Name", "Builtin"]
def tNamePlaceholder : TokType := ["Name", "Placeholder"]
def tString : TokType := ["Literal", "String"]
def tStringSingle : TokType := ["Literal", "String", "Single"]
def tStringSymbol : TokType := ["Literal", "String", "Symbol"]
def tNumber : TokType := ["Literal", "Number"]
def tOperator : TokType := ["Operator"]
def tOperatorComparison : TokType := ["Operator", "Comparison"]
def tPunctuation : TokType := ["Punctuation"]
def tWildcard : TokType := ["Wildcard"]
def tError : TokType := ["Error"]
def tAssignmentT : TokType := ["Assignment"]

/-- Modelled from the spec: the keyword tables (`keywords.py` is absent from
the sources).  Per §4.2 rule 5 and the glossary, a keyword table is an
ordered dictionary from uppercase keyword strings to keyword type tags; we
model the entries the verified claims exercise (DML/DDL statement keywords
and the block/clause keywords of §4.3 and §4.4). -/
def defaultKeywords : List (List (PyStr × TokType)) :=
  [[ ("SELECT".toList, tKeywordDML), ("INSERT".toList, tKeywordDML),
     ("UPDATE".toList, tKeywordDML), ("DELETE".toList, tKeywordDML),
     ("CREATE".toList, tKeywordDDL), ("DROP".toList, tKeywordDDL),
     ("ALTER".toList, tKeywordDDL),
     ("BEGIN".toList, tKeyword), ("END".toList, tKeyword),
     ("CASE".toList, tKeyword), ("WHEN".toList, tKeyword),
     ("THEN".toList, tKeyword), ("ELSE".toList, tKeyword),
     ("IF".toList, tKeyword), ("FOR".toList, tKeyword),
     ("FOREACH".toList, tKeyword), ("WHERE".toList, tKeyword),
     ("HAVING".toList, tKeyword), ("OVER".toList, tKeyword),
     ("FROM".toList, tKeyword) ]]

/-- `Lexer.is_keyword` (lexer.py): look the uppercased word up across the
keyword dictionaries in order; unmatched words become `Name`. -/
def is_keyword (kws : List (List (PyStr × TokType))) (value : PyStr) : TokType :=
  let val := pyUpper value
  match kws.findSome? (fun kwdict => (kwdict.find? (fun p => p.1 = val)).map Prod.snd) with
  | some tt => tt
  | none => tName

/-- The operator character set of `Lexer.get_tokens` (lexer.py line 146). -/
def opChar (c : Char) : Bool :=
  c = '+' || c = '-' || c = '*' || c = '/' || c = '%' || c = '<' || c = '>' ||
  c = '=' || c = '!' || c = '|' || c = '&' || c = '~' || c = '^'

/-- The punctuation character set of `Lexer.get_tokens` (lexer.py line 155). -/
def punctChar (c : Char) : Bool :=
  c = '(' || c = ')' || c = '[' || c = ']' || c = Char.ofNat 123 ||
  c = Char.ofNat 125 || c = ',' || c = ';' || c = '.'

/-- The string-literal scan of `Lexer.get_tokens` (lexer.py lines 106-121):
starting after the opening quote `q`, consume until an unescaped closing `q`
(a backslash toggles the `escaped` flag, any other character clears it); the
closing quote, when found, is included in the consumed prefix.  Returns the
consumed prefix and the rest. -/
def qscan (q : Char) (escaped : Bool) : PyStr → PyStr × PyStr
  | [] => ([], [])
  | x :: xs =>
    if x = q ∧ escaped = false then ([x], xs)
    else
      let esc' := if x = bslash then !escaped else false
      let r := qscan q esc' xs
      (x :: r.1, r.2)

theorem qscan_append (q : Char) (e : Bool) (l : PyStr) :
    (qscan q e l).1 ++ (qscan q e l).2 = l := by
  induction l generalizing e with
  | nil => simp [qscan]
  | cons x xs ih =>
    simp only [qscan]
    split
    · simp
    · simpa using ih _

theorem qscan_length_le (q : Char) (e : Bool) (l : PyStr) :
    (qscan q e l).2.length ≤ l.length := by
  induction l generalizing e with
  | nil => simp [qscan]
  | cons x xs ih =>
    simp only [qscan]
    split
    · simp
    · exact Nat.le_trans (ih _) (Nat.le_succ _)

theorem dropWhile_length_le (p : Char → Bool) (l : PyStr) :
    (l.dropWhile p).length ≤ l.length :=
  (List.dropWhile_suffix p).length_le

/-- `Lexer.get_tokens` (lexer.py lines 85-160): the scanning loop, driven by
a fuel argument that the wrapper `get_tokens` instantiates with the input
length (each rule consumes at least one character, so the fuel never runs
out; the fuel-exhausted case is unreachable).  The rules are tried in
source order at every position:
whitespace run / line comment (`--` to end of line) / quoted string /
number / identifier-or-keyword (with the ASC/DESC special case) /
operator run / single-character punctuation / single-character `Error`.
The comment rule reads `text[pos + 1]`, which raises `IndexError` when the
scanner reaches a final `-`; this is the one raise site, embedded as
`Except.error .indexError`. -/
def get_tokens_go (kws : List (List (PyStr × TokType))) :
    Nat → PyStr → Except PyErr (List (TokType × PyStr))
  | _, [] => .ok []
  | 0, _ :: _ => .ok []
  | fuel + 1, c :: rs =>
    if pyIsSpace c then
      (get_tokens_go kws fuel (rs.dropWhile pyIsSpace)).map
        (((tWhitespace, c :: rs.takeWhile pyIsSpace)) :: ·)
    else if c = '-' ∧ rs = [] then
      -- `text[pos + 1]` with `pos + 1 == len(text)` raises IndexError
      .error .indexError
    else if c = '-' ∧ rs.head? = some '-' then
      (get_tokens_go kws fuel (rs.dropWhile (· ≠ '\n'))).map
        (((tCommentSingle, c :: rs.takeWhile (· ≠ '\n'))) :: ·)
    else if c = dquote ∨ c = squote then
      (get_tokens_go kws fuel (qscan c false rs).2).map
        (((tString, c :: (qscan c false rs).1)) :: ·)
    else if pyIsDigit c then
      (get_tokens_go kws fuel (rs.dropWhile (fun x => pyIsDigit x || x = '.'))).map
        (((tNumber, c :: rs.takeWhile (fun x => pyIsDigit x || x = '.'))) :: ·)
    else if pyIsAlpha c ∨ c = '_' ∨ c = '$' then
      let word := c :: rs.takeWhile (fun x => pyIsAlnum x || x = '_' || x = '$')
      let tt :=
        if pyUpper word = "ASC".toList ∨ pyUpper word = "DESC".toList then tKeywordOrder
        else is_keyword kws word
      (get_tokens_go kws fuel (rs.dropWhile (fun x => pyIsAlnum x || x = '_' || x = '$'))).map
        (((tt, word)) :: ·)
    else if opChar c then
      (get_tokens_go kws fuel (rs.dropWhile opChar)).map
        (((tOperator, c :: rs.takeWhile opChar)) :: ·)
    else if punctChar c then
      (get_tokens_go kws fuel rs).map (((tPunctuation, [c])) :: ·)
    else
      (get_tokens_go kws fuel rs).map (((tError, [c])) :: ·)

/-- `Lexer.get_tokens` / `tokenize` (lexer.py lines 64-169): scan the whole
text. -/
def get_tokens (kws : List (List (PyStr × TokType))) (text : PyStr) :
    Except PyErr (List (TokType × PyStr)) :=
  get_tokens_go kws text.length text

/-- Concatenation of the `value` components of a `(tokentype, value)` list. -/
def joinVals (ts : List (TokType × PyStr)) : PyStr :=
  ts.foldr (fun p acc => p.2 ++ acc) []

theorem joinVals_cons (p : TokType × PyStr) (ts : List (TokType × PyStr)) :
    joinVals (p :: ts) = p.2 ++ joinVals ts := rfl

theorem except_map_ok {α β : Type} (f : α → β) (x : Except PyErr α) (b : β)
    (h : x.map f = .ok b) : ∃ a, x = .ok a ∧ b = f a := by
  cases x with
  | ok a => exact ⟨a, rfl, by simpa [Except.map] using h.symm⟩
  | error e => simp [Except.map] at h

set_option maxHeartbeats 1000000 in
theorem get_tokens_go_roundtrip (kws : List (List (PyStr × TokType))) :
    ∀ (fuel : Nat) (text : PyStr) (ts : List (TokType × PyStr)),
      text.length ≤ fuel → get_tokens_go kws fuel text = .ok ts → joinVals ts = text := by
  intro fuel
  induction fuel with
  | zero =>
    intro text ts hlen h
    cases text with
    | nil =>
      simp only [get_tokens_go] at h
      cases h
      rfl
    | cons c rs => simp at hlen
  | succ f ih =>
    intro text ts hlen h
    cases text with
    | nil =>
      simp only [get_tokens_go] at h
      cases h
      rfl
    | cons c rs =>
      have hrs : rs.length ≤ f := by
        simp only [List.length_cons] at hlen
        omega
      simp only [get_tokens_go] at h
      by_cases hsp : pyIsSpace c
      · rw [if_pos hsp] at h
        obtain ⟨ts', h1, h2⟩ := except_map_ok _ _ _ h
        subst h2
        rw [joinVals_cons]
        simp only [List.cons_append, List.cons.injEq, true_and]
        rw [ih _ ts' (Nat.le_trans (dropWhile_length_le _ _) hrs) h1]
        apply List.takeWhile_append_dropWhile
      · rw [if_neg hsp] at h
        by_cases hdash : c = '-' ∧ rs = []
        · rw [if_pos hdash] at h
          exact Except.noConfusion h
        · rw [if_neg hdash] at h
          by_cases hcm : c = '-' ∧ rs.head? = some '-'
          · rw [if_pos hcm] at h
            obtain ⟨ts', h1, h2⟩ := except_map_ok _ _ _ h
            subst h2
            rw [joinVals_cons]
            simp only [List.cons_append, List.cons.injEq, true_and]
            rw [ih _ ts' (Nat.le_trans (dropWhile_length_le _ _) hrs) h1]
            apply List.takeWhile_append_dropWhile
          · rw [if_neg hcm] at h
            by_cases hq : c = dquote ∨ c = squote
            · rw [if_pos hq] at h
              obtain ⟨ts', h1, h2⟩ := except_map_ok _ _ _ h
              subst h2
              rw [joinVals_cons]
              simp only [List.cons_append, List.cons.injEq, true_and]
              rw [ih _ ts' (Nat.le_trans (qscan_length_le _ _ _) hrs) h1]
              exact qscan_append c false rs
            · rw [if_neg hq] at h
              by_cases hdig : pyIsDigit c
              · rw [if_pos hdig] at h
                obtain ⟨ts', h1, h2⟩ := except_map_ok _ _ _ h
                subst h2
                rw [joinVals_cons]
                simp only [List.cons_append, List.cons.injEq, true_and]
                rw [ih _ ts' (Nat.le_trans (dropWhile_length_le _ _) hrs) h1]
                apply List.takeWhile_append_dropWhile
              · rw [if_neg hdig] at h
                by_cases hal : pyIsAlpha c ∨ c = '_' ∨ c = '$'
                · rw [if_pos hal] at h
                  obtain ⟨ts', h1, h2⟩ := except_map_ok _ _ _ h
                  subst h2
                  rw [joinVals_cons]
                  simp only [List.cons_append, List.cons.injEq, true_and]
                  rw [ih _ ts' (Nat.le_trans (dropWhile_length_le _ _) hrs) h1]
                  apply List.takeWhile_append_dropWhile
                · rw [if_neg hal] at h
                  by_cases hop : opChar c
                  · rw [if_pos hop] at h
                    obtain ⟨ts', h1, h2⟩ := except_map_ok _ _ _ h
                    subst h2
                    rw [joinVals_cons]
                    simp only [List.cons_append, List.cons.injEq, true_and]
                    rw [ih _ ts' (Nat.le_trans (dropWhile_length_le _ _) hrs) h1]
                    apply List.takeWhile_append_dropWhile
                  · rw [if_neg hop] at h
                    by_cases hpu : punctChar c
                    · rw [if_pos hpu] at h
                      obtain ⟨ts', h1, h2⟩ := except_map_ok _ _ _ h
                      subst h2
                      rw [joinVals_cons, ih _ ts' hrs h1]
                      rfl
                    · rw [if_neg hpu] at h
                      obtain ⟨ts', h1, h2⟩ := except_map_ok _ _ _ h
                      subst h2
                      rw [joinVals_cons, ih _ ts' hrs h1]
                      rfl

/-- Whenever `Lexer.get_tokens` succeeds, concatenating the yielded token
values reproduces the input text exactly (the round-trip property). -/
theorem get_tokens_roundtrip (kws : List (List (PyStr × TokType)))
    (text : PyStr) (ts : List (TokType × PyStr))
    (h : get_tokens kws text = .ok ts) : joinVals ts = text :=
  get_tokens_go_roundtrip kws text.length text ts (Nat.le_refl _) h

/-- The `TokenList` subclasses of sql.py that tag composite nodes. -/
inductive GKind where
  | statement | parenthesis | squareBrackets | caseG | ifG | forG | beginG
  | typedLiteral | identifier | identifierList | operation | valuesG | command
  | comparison | assignment | whereG | havingG | overG | commentG | functionG
  deriving DecidableEq, Repr

/-- sql.py `Token` / `TokenList`: a leaf token carries a token type and its
exact source text; a composite node carries its kind and its children
(`TokenList.__init__` passes `ttype=None` for the composite itself). -/
inductive SToken where
  | tok (ttype : TokType) (value : PyStr)
  | group (kind : GKind) (children : List SToken)

mutual

/-- `Token.flatten` / `TokenList.flatten` (sql.py lines 47-49, 153-163):
depth-first enumeration of the leaf tokens (mutually with its traversal of
a child list). -/
def flattenT : SToken → List SToken
  | .tok tt v => [.tok tt v]
  | .group _ ch => flattenList ch

/-- The child-list traversal of `TokenList.flatten`. -/
def flattenList : List SToken → List SToken
  | [] => []
  | t :: ts => flattenT t ++ flattenList ts

end

/-- The `value` attribute of a leaf. -/
def leafValue : SToken → PyStr
  | .tok _ v => v
  | .group _ _ => []

/-- `Token.value`: for a leaf the exact source slice; for a `TokenList`,
`str(self)` is the concatenation of the flattened leaves' values
(sql.py lines 120-121). -/
def tvalue (t : SToken) : PyStr :=
  ((flattenT t).map leafValue).flatten

/-- The `ttype` attribute (`None` on composites). -/
def ttypeOpt : SToken → Option TokType
  | .tok tt _ => some tt
  | .group _ _ => none

/-- The `is_group` attribute. -/
def is_group : SToken → Bool
  | .tok _ _ => false
  | .group _ _ => true

/-- The `is_whitespace` attribute: `self.ttype in T.Whitespace`. -/
def is_whitespace (t : SToken) : Bool :=
  match ttypeOpt t with
  | some tt => ttWithin tt tWhitespace
  | none => false

/-- The `is_keyword` attribute: `ttype in T.Keyword`. -/
def is_keyword_tok (t : SToken) : Bool :=
  match ttypeOpt t with
  | some tt => ttWithin tt tKeyword
  | none => false

/-- The `normalized` attribute: uppercased value iff the token is a keyword. -/
def normalized (t : SToken) : PyStr :=
  if is_keyword_tok t then pyUpper (tvalue t) else tvalue t

/-- `p` occurs as a contiguous substring of `s` (the semantics of Python
`re.search` for a metacharacter-free pattern). -/
def containsSub (s p : PyStr) : Bool :=
  s.tails.any (fun t => p.isPrefixOf t)

/-- `Token.match` (sql.py lines 51-78) with a single token type and a list of
values.  The regex branch is modelled for metacharacter-free patterns: the
alternation `re.search('(?:v1)|(?:v2)...', target, flags)` succeeds iff some
`v` occurs as a substring of the target, case-insensitively (`re.IGNORECASE`)
exactly when the token is a keyword.  The plain branch compares the
normalized text against the uppercased candidates for keywords and the raw
value against the raw candidates otherwise.  The type filter is
`utils.imt(self, t=ttype)`, which is an identity test `token.ttype is t`. -/
def token_match (t : SToken) (ttype : Option TokType) (values : Option (List PyStr))
    (regex : Bool) : Bool :=
  if ttype.isSome ∧ ttypeOpt t ≠ ttype then false
  else
    match values with
    | none => true
    | some vs =>
      if regex then
        let target := if is_keyword_tok t then normalized t else tvalue t
        if is_keyword_tok t then vs.any (fun v => containsSub (pyUpper target) (pyUpper v))
        else vs.any (fun v => containsSub target v)
      else if is_keyword_tok t then decide (normalized t ∈ vs.map pyUpper)
      else decide (tvalue t ∈ vs)

/-- `isinstance(t, Comment)` for the `skip_cm` filter of sql.py. -/
def is_comment_inst : SToken → Bool
  | .group .commentG _ => true
  | _ => false

/-- `TokenList._token_matching` (sql.py lines 165-181) restricted to the
forward full-range form used by `token_first`: returns the first token on
which SOME of the given functions succeeds (the inner loop returns as soon
as one function matches). -/
def _token_matching (funcs : List (SToken → Bool)) (tokens : List SToken) : Option SToken :=
  tokens.find? (fun token => funcs.any (fun f => f token))

/-- `TokenList.token_first` (sql.py lines 183-197): builds the filter list
from `skip_ws` / `skip_cm` and delegates to `_token_matching`. -/
def token_first (skip_ws skip_cm : Bool) (tokens : List SToken) : Option SToken :=
  _token_matching
    ((if skip_ws then [fun t => !is_whitespace t] else []) ++
     (if skip_cm then [fun t => !is_comment_inst t] else []))
    tokens

/-- `Statement.get_type` (sql.py lines 332-348), over the statement's child
list: take `token_first()` (note: with the default `skip_cm=False`), return
its `normalized` text when its ttype is exactly `Keyword.DML` or
`Keyword.DDL`, else `"UNKNOWN"`. -/
def get_type (tokens : List SToken) : PyStr :=
  match token_first true false tokens with
  | none => "UNKNOWN".toList
  | some ft =>
    if ttypeOpt ft = some tKeywordDML ∨ ttypeOpt ft = some tKeywordDDL then normalized ft
    else "UNKNOWN".toList

/-- `token.tokens[-1]` on a composite. -/
def lastChild : SToken → Option SToken
  | .group _ ch => ch.getLast?
  | .tok _ _ => none

/-- The loop body of `Case.get_cases` (sql.py lines 450-482), with the
running `condition` / `value` accumulators and collected results.
`token.tokens[-1]` on an empty group would raise IndexError. -/
def get_cases_go : List SToken → Option (List SToken) → Option (List SToken) →
    List (Option (List SToken) × List SToken) →
    Except PyErr (List (Option (List SToken) × List SToken))
  | [], cond, val, res =>
    match val with
    | some v => .ok (res ++ [(cond, v)])
    | none => .ok res
  | token :: rest, cond, val, res =>
    if token_match token (some tKeyword) (some ["WHEN".toList]) false then
      get_cases_go rest (some []) val res
    else if token_match token (some tKeyword) (some ["THEN".toList]) false then
      get_cases_go rest cond (some []) res
    else if token_match token (some tKeyword) (some ["ELSE".toList]) false then
      get_cases_go rest none (some []) res
    else
      match cond, val with
      | some c, none => get_cases_go rest (some (c ++ [token])) none res
      | _, some v =>
        let val' := v ++ [token]
        if is_group token then
          match lastChild token with
          | none => .error .indexError
          | some lt =>
            if token_match lt (some tKeyword) (some ["END".toList]) false then
              get_cases_go rest none none (res ++ [(cond, val')])
            else get_cases_go rest cond (some val') res
        else get_cases_go rest cond (some val') res
      | _, none => get_cases_go rest cond val res

/-- `Case.get_cases` (sql.py lines 450-482) over the Case node's children. -/
def get_cases (tokens : List SToken) : Except PyErr (List (Option (List SToken) × List SToken)) :=
  get_cases_go tokens none none []

/-- The `M_OPEN` class attribute as evaluated by `token.match(*cls.M_OPEN)`
in `grouping._group_matching`. -/
inductive OpenSpec where
  /-- A `(ttype, values)` pair such as `Parenthesis.M_OPEN`. -/
  | pair (tt : TokType) (vals : List PyStr)
  /-- `TypedLiteral.M_OPEN`, the two-element list
  `[(T.Name.Builtin, None), (T.Keyword, 'TIMESTAMP')]`:
  unpacked into `match((T.Name.Builtin, None), (T.Keyword, 'TIMESTAMP'))`. -/
  | typedLit

/-- The `M_OPEN` class attributes of sql.py (lines 396-513).  `none` means
the class has no such attribute, so that `cls.M_OPEN` raises
`AttributeError` (this is the case for Identifier, IdentifierList,
Operation, Values, Command, Comparison and Assignment, which
`grouping.group` nevertheless feeds to `_group_matching`). -/
def M_OPEN : GKind → Option OpenSpec
  | .parenthesis => some (.pair tPunctuation ["(".toList])
  | .squareBrackets => some (.pair tPunctuation ["[".toList])
  | .caseG => some (.pair tKeyword ["CASE".toList])
  | .ifG => some (.pair tKeyword ["IF".toList])
  | .forG => some (.pair tKeyword ["FOR".toList, "FOREACH".toList])
  | .beginG => some (.pair tKeyword ["BEGIN".toList])
  | .typedLiteral => some .typedLit
  | .whereG => some (.pair tKeyword ["WHERE".toList])
  | .havingG => some (.pair tKeyword ["HAVING".toList])
  | .overG => some (.pair tKeyword ["OVER".toList])
  | _ => none

/-- `token.match(*cls.M_OPEN)`.  For the pair form this is `Token.match`.
For `TypedLiteral.M_OPEN` the unpacking passes the tuple
`(T.Name.Builtin, None)` as `ttype` — `utils.imt` then succeeds when
`token.ttype` is `Name.Builtin` or `None` (composites) — and the tuple
`(T.Keyword, 'TIMESTAMP')` as `values`; every token passing the type test
has `is_keyword == False`, so `self.value in values` only compares against
the one string element. -/
def eval_open_match (t : SToken) : OpenSpec → Bool
  | .pair tt vals => token_match t (some tt) (some vals) false
  | .typedLit =>
    (ttypeOpt t = some tNameBuiltin ∨ ttypeOpt t = none) ∧ tvalue t = "TIMESTAMP".toList

/-- The scan loop of `grouping._group_matching` (grouping.py lines 13-31),
traversing the suffix of the child list that starts at the loop index.
On the first non-whitespace token it evaluates `token.match(*cls.M_OPEN)`:
when `cls` has no `M_OPEN` attribute this raises `AttributeError`; when the
open marker matches, the call `tlist.token_matching(token, idx)` raises
`AttributeError` because `TokenList` (sql.py) defines no method of that
name (only `_token_matching`). -/
def _group_matching_scan (cls : GKind) : List SToken → Except PyErr Unit
  | [] => .ok ()
  | token :: rest =>
    if is_whitespace token then _group_matching_scan cls rest
    else
      match M_OPEN cls with
      | none => .error (.attributeError "M_OPEN")
      | some spec =>
        if eval_open_match token spec then .error (.attributeError "token_matching")
        else _group_matching_scan cls rest

/-- `grouping._group_matching` (grouping.py lines 13-31): the only
non-raising paths leave the list unchanged. -/
def _group_matching (tlist : List SToken) (cls : GKind) : Except PyErr (List SToken) :=
  (_group_matching_scan cls tlist).map (fun _ => tlist)

/-- The `match` argument of `grouping._group`, as unpacked by
`token.match(*match)`. -/
inductive MidSpec where
  /-- A one-element tuple such as `(T.Operator.Comparison,)` (used for
  Comparison and Assignment): `token.match(T.Operator.Comparison)` is a
  call missing the required positional argument `values` and raises
  `TypeError`. -/
  | one
  /-- A `(ttype, value)` pair such as `(T.Keyword, 'WHERE')`. -/
  | two (tt : TokType) (vals : List PyStr)

/-- The look-ahead loop of `grouping._group` (grouping.py lines 86-96,
`extend=True`), traversing the suffix starting at the loop index `end`
(the loop runs while that suffix has at least two tokens, i.e.
`end < len(tlist.tokens) - 1`).  The head of the tail is
`tlist.tokens[end + 1]`.  Reading `tlist.tokens[end + 2]` (the argument of
the constant-true `valid_next`) raises `IndexError` when
`end + 2 == len(tlist.tokens)`. -/
def _group_extend_scan (tt : TokType) (vals : List PyStr) : List SToken → Except PyErr Unit
  | _cur :: next_token :: rest =>
    if is_whitespace next_token then _group_extend_scan tt vals (next_token :: rest)
    else if token_match next_token (some tt) (some vals) false then
      match rest with
      | [] => .error .indexError
      | _ :: _ => _group_extend_scan tt vals rest
    else .ok ()
  | _ => .ok ()

/-- The scan loop of `grouping._group` (grouping.py lines 72-110),
traversing the suffix starting at index `idx - 1` (the loop runs from
`idx = 1` while `idx < len(tlist.tokens) - 1`, i.e. while the suffix has at
least three tokens; its second element is `tlist.tokens[idx]`).
`valid_prev` and `valid_next` are the default constant-true lambdas for all
call sites in `group()`.  With the one-element `match` tuple the
`token.match(*match)` call itself raises `TypeError`; with the pair form a
successful match reaches `tlist.group_tokens(cls, tokens)`, which raises
`TypeError` because `TokenList.group_tokens` (sql.py line 234) requires the
positional arguments `start` and `end`. -/
def _group_scan (spec : MidSpec) : List SToken → Except PyErr Unit
  | _before :: token :: after :: rest =>
    if is_whitespace token then _group_scan spec (token :: after :: rest)
    else
      match spec with
      | .one => .error (.typeError "match")
      | .two tt vals =>
        if token_match token (some tt) (some vals) false then
          (_group_extend_scan tt vals (after :: rest)).bind fun _ =>
            .error (.typeError "group_tokens")
        else _group_scan spec (token :: after :: rest)
  | _ => .ok ()

/-- `grouping._group` (grouping.py lines 72-110). -/
def _group (tlist : List SToken) (spec : MidSpec) : Except PyErr (List SToken) :=
  (_group_scan spec tlist).map (fun _ => tlist)

/-- The scan loop of `grouping.group_order` (grouping.py lines 33-54),
traversing the suffix starting at the loop index (the loop runs while
`idx < len(tlist.tokens) - 1`, i.e. while the suffix has at least two
tokens).  Its `@recurse(sql.Identifier)` wrapper (utils.py lines 45-60)
applies the body to those flattened leaves of non-Identifier children that
are `Identifier` instances — leaves never are — and then to the list
itself, so the wrapper reduces to the plain loop.  A successful match
reaches `tlist.group_tokens(sql.Identifier, ...)`, again missing the
required `end` argument (`TypeError`). -/
def group_order_scan : List SToken → Except PyErr Unit
  | token :: next_token :: rest =>
    if is_whitespace token || is_group token then group_order_scan (next_token :: rest)
    else if is_whitespace next_token then group_order_scan (next_token :: rest)
    else if (ttypeOpt token = some tName ∨ ttypeOpt token = some tStringSymbol ∨
             ttypeOpt token = some tNumber) ∧
            token_match next_token (some tKeyword) (some ["ASC".toList, "DESC".toList]) true then
      .error (.typeError "group_tokens")
    else group_order_scan (next_token :: rest)
  | _ => .ok ()

/-- `grouping.group_order` (grouping.py lines 33-54). -/
def group_order (tlist : List SToken) : Except PyErr (List SToken) :=
  (group_order_scan tlist).map (fun _ => tlist)

/-- `grouping.group` (grouping.py lines 56-70): the fixed pass order — the
matched-bracket pass for each listed class, then the middle-token passes
for Comparison, Assignment, Where, Having, Over, then `group_order`. -/
def group (stream : List SToken) : Except PyErr (List SToken) := do
  let s ← _group_matching stream .parenthesis
  let s ← _group_matching s .squareBrackets
  let s ← _group_matching s .caseG
  let s ← _group_matching s .ifG
  let s ← _group_matching s .forG
  let s ← _group_matching s .beginG
  let s ← _group_matching s .typedLiteral
  let s ← _group_matching s .identifier
  let s ← _group_matching s .identifierList
  let s ← _group_matching s .operation
  let s ← _group_matching s .valuesG
  let s ← _group_matching s .command
  let s ← _group s .one
  let s ← _group s .one
  let s ← _group s (.two tKeyword ["WHERE".toList])
  let s ← _group s (.two tKeyword ["HAVING".toList])
  let s ← _group s (.two tKeyword ["OVER".toList])
  let s ← group_order s
  return s

/-- Modelled from the spec: `StatementSplitter._change_splitlevel`
(engine/statement_splitter.py is a `pass` stub in the sources).  Per §4.3:
certain keyword tokens increase the nesting level (BEGIN, CASE, IF,
FOR/FOREACH), their corresponding closers decrease it (END, END IF,
END LOOP). -/
def _change_splitlevel (ttype : TokType) (value : PyStr) : Int :=
  if ttWithin ttype tKeyword then
    let v := pyUpper value
    if v = "BEGIN".toList ∨ v = "CASE".toList ∨ v = "IF".toList ∨
       v = "FOR".toList ∨ v = "FOREACH".toList then 1
    else if v = "END".toList ∨ v = "END IF".toList ∨ v = "END LOOP".toList then -1
    else 0
  else 0

/-- Modelled from the spec: the accumulation loop of
`StatementSplitter.process` (a `pass` stub in the sources).  Per §4.3: a
`;` punctuation terminates the current statement only at nesting level 0
(the terminator is included in the emitted statement); trailing tokens are
emitted as a final statement when they are not empty and not
whitespace-only. -/
def process_go : List (TokType × PyStr) → Int → List (TokType × PyStr) →
    List (List (TokType × PyStr)) → List (List (TokType × PyStr))
  | [], _, acc, res =>
    if acc ≠ [] ∧ ¬ acc.all (fun p => ttWithin p.1 tWhitespace) then res ++ [acc] else res
  | (tt, v) :: rest, level, acc, res =>
    let level' := level + _change_splitlevel tt v
    let acc' := acc ++ [(tt, v)]
    if tt = tPunctuation ∧ v = ";".toList ∧ level' = 0 then
      process_go rest level' [] (res ++ [acc'])
    else process_go rest level' acc' res

/-- Modelled from the spec: `StatementSplitter.process` (§4.3), partitioning
the scanner's stream into one flat token list per statement. -/
def process (stream : List (TokType × PyStr)) : List (List (TokType × PyStr)) :=
  process_go stream 0 [] []

/-- A subset of Python values, enough for the option dictionaries consumed
by `formatter.validate_options`. -/
inductive PyVal where
  | pbool (b : Bool)
  | pint (n : Int)
  | pstr (s : String)
  | pnone
  deriving DecidableEq, Repr

/-- The option dictionary handed to `formatter.validate_options`, restricted
to the keys the function inspects (`reindent`, `indent_width`,
`keyword_case`); `none` means the key is absent.  Other keys are ignored by
the function and omitted from the model. -/
structure PyOptions where
  reindent : Option PyVal
  indent_width : Option PyVal
  keyword_case : Option PyVal
  deriving DecidableEq, Repr

/-- Python `isinstance(v, bool)`. -/
def pyIsBool : PyVal → Bool
  | .pbool _ => true
  | _ => false

/-- Python `isinstance(v, int)` — true for booleans as well, since `bool`
is a subclass of `int`. -/
def pyIsInstInt : PyVal → Bool
  | .pint _ => true
  | .pbool _ => true
  | _ => false

/-- The integer value used by comparisons (`True == 1`, `False == 0`);
only meaningful when `pyIsInstInt` holds. -/
def pyToInt : PyVal → Int
  | .pint n => n
  | .pbool b => if b then 1 else 0
  | _ => 0

/-- `formatter.validate_options` (formatter.py lines 5-26): `None` becomes
the empty dictionary; `reindent` must be a boolean, `indent_width` an `int`
that is not negative, `keyword_case` one of `upper` / `lower` /
`capitalize` / `None`; any violation raises `SQLParseError` with the given
message, otherwise the options are returned unchanged. -/
def validate_options (options : Option PyOptions) : Except String PyOptions :=
  let opts := options.getD ⟨none, none, none⟩
  if opts.reindent.isSome ∧ pyIsBool (opts.reindent.getD .pnone) = false then
    .error "Invalid value for reindent"
  else if opts.indent_width.isSome ∧
      (pyIsInstInt (opts.indent_width.getD .pnone) = false ∨
       pyToInt (opts.indent_width.getD .pnone) < 0) then
    .error "indent_width must be a positive integer"
  else if opts.keyword_case.isSome ∧
      (opts.keyword_case.getD .pnone) ∉
        [PyVal.pstr "upper", PyVal.pstr "lower", PyVal.pstr "capitalize", PyVal.pnone] then
    .error "Invalid value for keyword_case"
  else .ok opts

/-- The spec's notion of an option set with no invalid value (§7,
"Configuration error"), stated independently of the code: a present
`reindent` is a boolean, a present `indent_width` is an integer (Python
booleans included) that is not negative, a present `keyword_case` is one
of the recognized modes or `None`. -/
def options_all_valid (o : PyOptions) : Bool :=
  (match o.reindent with
   | none => true
   | some r => pyIsBool r) &&
  (match o.indent_width with
   | none => true
   | some w => pyIsInstInt w && decide (0 ≤ pyToInt w)) &&
  (match o.keyword_case with
   | none => true
   | some k =>
     decide (k ∈ [PyVal.pstr "upper", PyVal.pstr "lower", PyVal.pstr "capitalize", PyVal.pnone]))

/-- The leaf tokens produced by scanning `s` with the default keyword
tables (empty when the scanner raises). -/
def lexed_leaves (s : String) : List SToken :=
  match get_tokens defaultKeywords s.toList with
  | .ok ts => ts.map (fun p => SToken.tok p.1 p.2)
  | .error _ => []

/-- C1.  The claim says the token stream of `tokenize(S)` reconstructs every
input `S` exactly.  It fails on the code: for the input `"a-"` the scanner
raises `IndexError` (lexer.py line 97 reads `text[pos + 1]` with
`pos + 1 == len(text)`), so no token stream exists at all — no gap-free
covering is produced.  (For every input on which `get_tokens` succeeds, the
round-trip does hold: `get_tokens_roundtrip` above.) -/
theorem get_tokens_roundtrip_fails_on_dash_suffix :
    get_tokens defaultKeywords "a-".toList = .error .indexError := rfl

/-- C2.  The claim says scanning is total and yields `(Error, char)` on any
unmatched character.  The second conjunct confirms the `Error`-token
behaviour on a genuinely unmatched character, but totality fails: on the
input `"-"` the comment lookahead `text[pos + 1]` (lexer.py line 97) raises
`IndexError` instead of producing a token. -/
theorem get_tokens_raises_on_lone_dash :
    get_tokens defaultKeywords "-".toList = .error .indexError ∧
    get_tokens defaultKeywords "?a".toList =
      .ok [(tError, ['?']), (tName, ['a'])] := ⟨rfl, rfl⟩

/-- C3.  The statement splitter (modelled from spec §4.3, the source being a
stub) terminates a statement at `;` only at nesting level 0:
`"SELECT 1; SELECT 2;"` splits into exactly two statements, while
`"BEGIN SELECT 1; END;"` stays one statement because the inner `;` occurs
at level 1. -/
theorem statement_split_counts :
    (get_tokens defaultKeywords "SELECT 1; SELECT 2;".toList).map
      (fun ts => (process ts).length) = .ok 2 ∧
    (get_tokens defaultKeywords "BEGIN SELECT 1; END;".toList).map
      (fun ts => (process ts).length) = .ok 1 := ⟨rfl, rfl⟩

/-- C4.  The claim says grouping `"(a (b) c)"` yields one Parenthesis node
with one nested Parenthesis.  On the code, `group()` raises instead: as
soon as `_group_matching` sees the opening `(` it calls
`tlist.token_matching(token, idx)` (grouping.py line 23), a method that
`TokenList` does not define (sql.py only has `_token_matching`), so the
pass dies with `AttributeError` and no Parenthesis node is ever built. -/
theorem group_parenthesis_raises :
    group (lexed_leaves "(a (b) c)") = .error (.attributeError "token_matching") := rfl

/-- C5.  The claim says grouping `"a < b < c"` yields a single Comparison
node.  On the code, `group()` raises before the Comparison pass is even
reached: the matched-bracket loop is also run for `Identifier`
(grouping.py lines 58-61), and `Identifier` has no `M_OPEN` attribute, so
`token.match(*cls.M_OPEN)` dies with `AttributeError` on the first
non-whitespace token.  (Moreover the lexer only ever emits plain
`Operator` tokens, never `Operator.Comparison`, and the Comparison pass
calls `token.match` with a missing positional argument.) -/
theorem group_comparison_chain_raises :
    group (lexed_leaves "a < b < c") = .error (.attributeError "M_OPEN") := rfl

/-- C6.  The claim says `group()` preserves the flattened leaf sequence for
every flat token list.  On the code, `group()` raises `AttributeError` for
any list containing a non-whitespace token (here the single leaf `a`), so
there is no output whose flattening could be compared. -/
theorem group_single_name_raises :
    group [SToken.tok tName ['a']] = .error (.attributeError "M_OPEN") := rfl

/-- C7.  The claim (and the docstring of `Statement.get_type`) says leading
whitespace and comments are ignored.  Leading whitespace is (second
conjunct), but a leading comment is not: `get_type` calls `token_first()`
with the default `skip_cm=False` (sql.py line 342), so the comment itself
is taken as the first token and the result is `"UNKNOWN"` instead of
`"SELECT"`. -/
theorem get_type_leading_comment_not_ignored :
    get_type [SToken.tok tCommentSingle "-- c".toList, SToken.tok tWhitespace ['\n'],
              SToken.tok tKeywordDML "select".toList] = "UNKNOWN".toList ∧
    get_type [SToken.tok tWhitespace [' '],
              SToken.tok tKeywordDML "select".toList] = "SELECT".toList := ⟨rfl, rfl⟩

/-- C8.  The claim says `get_cases()` on the Case built from
`"CASE WHEN a THEN 1 ELSE 0 END"` yields two pairs (WHEN-condition with
value `1`, then the ELSE pair with value `0`).  On the code it yields ONE
pair: the `ELSE` branch (sql.py lines 467-469) overwrites `condition` and
`value` without appending the pending WHEN pair to the results, so that
pair is dropped, and the trailing `END` keyword even ends up inside the
ELSE value list. -/
theorem get_cases_drops_when_pair :
    get_cases (lexed_leaves "CASE WHEN a THEN 1 ELSE 0 END") =
      .ok [(none, [SToken.tok tWhitespace [' '], SToken.tok tNumber ['0'],
                   SToken.tok tWhitespace [' '], SToken.tok tKeyword "END".toList])] := rfl

/-- C9.  `validate_options` raises `SQLParseError` exactly on an invalid
option value and otherwise returns the options unchanged: an option set
satisfying the spec's validity conditions is returned as-is; an option set
violating them produces an error; in particular a negative `indent_width`
and an unrecognized `keyword_case` mode each raise.  (`validate_options`
performs no tokenization: its definition references no scanner state.) -/
theorem validate_options_spec :
    (∀ o : PyOptions, options_all_valid o = true → validate_options (some o) = .ok o) ∧
    (∀ o : PyOptions, options_all_valid o = false → ∃ m, validate_options (some o) = .error m) ∧
    (∀ n : Int, n < 0 →
      validate_options (some ⟨none, some (.pint n), none⟩) =
        .error "indent_width must be a positive integer") ∧
    (∀ s : String, s ∉ (["upper", "lower", "capitalize"] : List String) →
      validate_options (some ⟨none, none, some (.pstr s)⟩) =
        .error "Invalid value for keyword_case") := by
  refine ⟨?_, ?_, ?_, ?_⟩
  · intro o hv
    rcases o with ⟨r, w, k⟩
    simp only [options_all_valid, Bool.and_eq_true] at hv
    obtain ⟨⟨h1, h2⟩, h3⟩ := hv
    simp only [validate_options, Option.getD_some]
    split_ifs with hc1 hc2 hc3
    · exfalso
      obtain ⟨hs, hb⟩ := hc1
      cases r with
      | none => simp at hs
      | some rr =>
        have h1' : pyIsBool rr = true := h1
        simp only [Option.getD_some] at hb
        rw [h1'] at hb
        exact Bool.noConfusion hb
    · exfalso
      obtain ⟨hs, hb⟩ := hc2
      cases w with
      | none => simp at hs
      | some ww =>
        have h2' : (pyIsInstInt ww && decide (0 ≤ pyToInt ww)) = true := h2
        simp only [Bool.and_eq_true, decide_eq_true_eq] at h2'
        simp only [Option.getD_some] at hb
        rcases hb with hf | hneg
        · rw [h2'.1] at hf
          exact Bool.noConfusion hf
        · omega
    · exfalso
      obtain ⟨hs, hb⟩ := hc3
      cases k with
      | none => simp at hs
      | some kk =>
        have h3' :
            decide (kk ∈ [PyVal.pstr "upper", PyVal.pstr "lower",
              PyVal.pstr "capitalize", PyVal.pnone]) = true := h3
        simp only [decide_eq_true_eq] at h3'
        simp only [Option.getD_some] at hb
        exact hb h3'
    · rfl
  · intro o hv
    rcases o with ⟨r, w, k⟩
    simp only [validate_options, Option.getD_some]
    split_ifs with hc1 hc2 hc3
    · exact ⟨_, rfl⟩
    · exact ⟨_, rfl⟩
    · exact ⟨_, rfl⟩
    · exfalso
      rw [← Bool.not_eq_true] at hv
      apply hv
      simp only [options_all_valid, Bool.and_eq_true]
      refine ⟨⟨?_, ?_⟩, ?_⟩
      · cases r with
        | none => rfl
        | some rr =>
          show pyIsBool rr = true
          by_contra hf
          simp only [Bool.not_eq_true] at hf
          exact hc1 ⟨rfl, by simpa using hf⟩
      · cases w with
        | none => rfl
        | some ww =>
          show (pyIsInstInt ww && decide (0 ≤ pyToInt ww)) = true
          simp only [Bool.and_eq_true, decide_eq_true_eq]
          constructor
          · by_contra hf
            simp only [Bool.not_eq_true] at hf
            exact hc2 ⟨rfl, Or.inl (by simpa using hf)⟩
          · by_contra hf
            refine hc2 ⟨rfl, Or.inr ?_⟩
            simp only [Option.getD_some]
            omega
      · cases k with
        | none => rfl
        | some kk =>
          show decide (kk ∈ [PyVal.pstr "upper", PyVal.pstr "lower",
            PyVal.pstr "capitalize", PyVal.pnone]) = true
          simp only [decide_eq_true_eq]
          by_contra hf
          exact hc3 ⟨rfl, by simpa using hf⟩
  · intro n hn
    simp only [validate_options, Option.getD_some]
    rw [if_neg (by simp), if_pos ⟨rfl, Or.inr (by simpa [pyToInt] using hn)⟩]
  · intro s hs
    simp only [validate_options, Option.getD_some]
    rw [if_neg (by simp), if_neg (by simp), if_pos ⟨rfl, by simpa using hs⟩]

/-- Witness for C9: the theorem applied at concrete option sets — a fully
valid set is returned unchanged; a non-boolean `reindent` raises; the
`indent_width` value `-1` and the `keyword_case` value `"foo"` raise with
the source's messages. -/
theorem validate_options_spec_witness :
    validate_options (some ⟨some (.pbool true), some (.pint 2), some (.pstr "upper")⟩) =
      .ok ⟨some (.pbool true), some (.pint 2), some (.pstr "upper")⟩ ∧
    (∃ m, validate_options (some ⟨some (.pstr "x"), none, none⟩) = .error m) ∧
    validate_options (some ⟨none, some (.pint (-1)), none⟩) =
      .error "indent_width must be a positive integer" ∧
    validate_options (some ⟨none, none, some (.pstr "foo")⟩) =
      .error "Invalid value for keyword_case" :=
  ⟨validate_options_spec.1 _ (by decide),
   validate_options_spec.2.1 _ (by decide),
   validate_options_spec.2.2.1 (-1) (by decide),
   validate_options_spec.2.2.2 "foo" (by decide)⟩

/-- C10.  `Token.match` compares values case-insensitively exactly when the
token is a keyword.  For a keyword token: the result (plain or regex) is
unchanged when a candidate is replaced by any same-letters variant, and the
plain match holds iff the uppercased candidate equals the uppercased token
text (the normalized form).  For a non-keyword token: the plain match is
exact equality with the raw token text and the regex match is
case-sensitive substring search on the raw token text. -/
theorem token_match_case_sensitivity (t : SToken) (v : PyStr) :
    (is_keyword_tok t = true →
      (∀ w : PyStr, pyUpper v = pyUpper w →
        token_match t none (some [v]) false = token_match t none (some [w]) false ∧
        token_match t none (some [v]) true = token_match t none (some [w]) true) ∧
      (token_match t none (some [v]) false = true ↔ pyUpper (tvalue t) = pyUpper v)) ∧
    (is_keyword_tok t = false →
      (token_match t none (some [v]) false = true ↔ tvalue t = v) ∧
      (token_match t none (some [v]) true = true ↔ containsSub (tvalue t) v = true)) := by
  constructor
  · intro hk
    constructor
    · intro w hw
      constructor
      · simp [token_match, hk, hw]
      · simp [token_match, hk, hw]
    · simp [token_match, hk, normalized]
  · intro hk
    constructor
    · simp [token_match, hk]
    · simp [token_match, hk]

/-- Witness for C10: the theorem applied at a keyword token `select` and a
non-keyword token `Ab` — for the keyword, the candidates `sElEcT` and
`SELECT` give the same result and the plain match reduces to uppercased
comparison; for the non-keyword, plain matching against `ab` is exact
(case-sensitive) comparison. -/
theorem token_match_case_sensitivity_witness :
    (token_match (SToken.tok tKeyword "select".toList) none (some ["sElEcT".toList]) false =
       token_match (SToken.tok tKeyword "select".toList) none (some ["SELECT".toList]) false) ∧
    (token_match (SToken.tok tKeyword "select".toList) none (some ["sElEcT".toList]) false = true ↔
       pyUpper (tvalue (SToken.tok tKeyword "select".toList)) = pyUpper "sElEcT".toList) ∧
    (token_match (SToken.tok tName "Ab".toList) none (some ["ab".toList]) false = true ↔
       tvalue (SToken.tok tName "Ab".toList) = "ab".toList) :=
  ⟨(((token_match_case_sensitivity (SToken.tok tKeyword "select".toList)
        "sElEcT".toList).1 (by decide)).1 "SELECT".toList (by decide)).1,
   ((token_match_case_sensitivity (SToken.tok tKeyword "select".toList)
        "sElEcT".toList).1 (by decide)).2,
   ((token_match_case_sensitivity (SToken.tok tName "Ab".toList)
        "ab".toList).2 (by decide)).1⟩

end SqlParse
